import Mathlib

/-!
Shallow embedding of the statics engine of `streamlit_app.py` (Beam Studio).

Python floats are modelled by `ℚ`; note that `ℚ` division is total with
`q / 0 = 0`, whereas Python raises `ZeroDivisionError` — every theorem that
touches a zero denominator states this explicitly in its doc comment.
-/

/-- Dynamic value passed to `validate_inputs`: either a number or a
non-numeric value (e.g. a string), which makes an order comparison raise
`TypeError` in Python. -/
inductive PyVal where
  | num (q : ℚ)
  | nonNum (tag : String)
deriving DecidableEq

/-- Python `a < b`: raises (`none`) when a non-numeric value meets a number. -/
def pyLt : PyVal → PyVal → Option Bool
  | .num a, .num b => some (decide (a < b))
  | _, _ => none

/-- Python `a > b`. -/
def pyGt : PyVal → PyVal → Option Bool
  | .num a, .num b => some (decide (a > b))
  | _, _ => none

/-- Python `a <= b`. -/
def pyLe : PyVal → PyVal → Option Bool
  | .num a, .num b => some (decide (a ≤ b))
  | _, _ => none

/-- Python `a == b`: never raises; a number and a non-number compare unequal. -/
def pyEqb : PyVal → PyVal → Option Bool
  | .num a, .num b => some (decide (a = b))
  | .nonNum a, .nonNum b => some (decide (a = b))
  | _, _ => some false

/-- The messages `validate_inputs` can return, with the f-string payloads kept
as constructor arguments (string formatting itself never raises in Python). -/
inductive Msg where
  | empty
  | beamLengthMustBePositive
  | locationOutsideBeam (loc L : PyVal)
  | rangeOutsideBeam (s e L : PyVal)
  | startEndSamePoint
  | invalidNumericInput
deriving DecidableEq

/-- The error taxonomy of the specification (§7). -/
inductive ErrKind where
  | invalidSpan
  | outOfBounds
  | degenerateRange
  | degenerateSupportSpan
  | invalidInput
deriving DecidableEq

/-- The specification's kind of each concrete message of the source. -/
def Msg.kind : Msg → Option ErrKind
  | .empty => none
  | .beamLengthMustBePositive => some .invalidSpan
  | .locationOutsideBeam _ _ => some .outOfBounds
  | .rangeOutsideBeam _ _ _ => some .outOfBounds
  | .startEndSamePoint => some .degenerateRange
  | .invalidNumericInput => some .invalidInput

/-- Body of `validate_inputs` (the part inside `try`). `none` models a raised
exception (TypeError from a comparison involving a non-number, IndexError from
a missing `args[i]`); Python's short-circuit `or` is kept: in
`if s < 0 or e > L`, when `s < 0` is true, `e > L` is never evaluated. -/
def validateBody (load_type : String) (L : PyVal) (args : List PyVal) :
    Option (Bool × Msg) :=
  match pyLe L (.num 0) with
  | none => none
  | some true => some (false, .beamLengthMustBePositive)
  | some false =>
    if load_type = "POINT" then
      match args[0]? with
      | none => none
      | some loc =>
        match pyLt loc (.num 0) with
        | none => none
        | some true => some (false, .locationOutsideBeam loc L)
        | some false =>
          match pyGt loc L with
          | none => none
          | some true => some (false, .locationOutsideBeam loc L)
          | some false => some (true, .empty)
    else if load_type = "UDL" ∨ load_type = "UVL" then
      match args[0]?, args[1]? with
      | some s, some e =>
        match pyLt s (.num 0) with
        | none => none
        | some true => some (false, .rangeOutsideBeam s e L)
        | some false =>
          match pyGt e L with
          | none => none
          | some true => some (false, .rangeOutsideBeam s e L)
          | some false =>
            match pyEqb s e with
            | none => none
            | some true => some (false, .startEndSamePoint)
            | some false => some (true, .empty)
      | _, _ => none
    else some (true, .empty)

/-- `validate_inputs` of the source: the bare `except:` turns any exception of
the body into `(False, "Invalid numeric input.")`. -/
def validate_inputs (load_type : String) (L : PyVal) (args : List PyVal) :
    Bool × Msg :=
  (validateBody load_type L args).getD (false, .invalidNumericInput)

/-- Support type: the source compares `b_type` against the string
`"Cantilever"`; every other value takes the simply-supported branch. -/
inductive BType where
  | cantilever
  | simplySupported
deriving DecidableEq

/-- The three load dictionaries of the source as a closed sum. -/
inductive Load where
  | point (mag loc : ℚ)
  | udl (mag s e : ℚ)
  | uvl (startMag endMag s e : ℚ)
deriving DecidableEq

/-- The position from which a load engages in the sampler: `loc` for a point
load, `start` for a distributed load. -/
def Load.engageAt : Load → ℚ
  | .point _ loc => loc
  | .udl _ s _ => s
  | .uvl _ _ s _ => s

/-- One load's contribution `(f, m)` to the accumulators `f_sum` and `m_sum`
of `calculate_analysis` (source lines 44–55), moments taken about `SupA`. -/
def loadFM (SupA : ℚ) : Load → ℚ × ℚ
  | .point mag loc => (mag, mag * (loc - SupA))
  | .udl mag s e =>
      let length := e - s
      let f := mag * length
      (f, f * (s + length / 2 - SupA))
  | .uvl w1 w2 s e =>
      let length := e - s
      let f1 := min w1 w2 * length
      let f2 := (1 / 2) * |w2 - w1| * length
      let c1 := s + length / 2 - SupA
      let c2 :=
        if w2 > w1 then s + (2 / 3) * length - SupA
        else s + (1 / 3) * length - SupA
      (f1 + f2, f1 * c1 + f2 * c2)

/-- The accumulated total vertical force `f_sum` of the source loop. -/
def f_sum (SupA : ℚ) (loads : List Load) : ℚ :=
  (loads.map fun l => (loadFM SupA l).1).sum

/-- The accumulated total moment `m_sum` about `SupA` of the source loop. -/
def m_sum (SupA : ℚ) (loads : List Load) : ℚ :=
  (loads.map fun l => (loadFM SupA l).2).sum

/-- Reaction solution of `calculate_analysis` (source lines 57–58), returned
as `(Ra, Rb, Ma)`. In the simply-supported branch the source divides by
`SupB - SupA` unconditionally; here `ℚ` division is total with `q / 0 = 0`,
while Python raises `ZeroDivisionError` when `SupB = SupA`. -/
def calculate_reactions (SupA SupB : ℚ) (b_type : BType) (loads : List Load) :
    ℚ × ℚ × ℚ :=
  match b_type with
  | .cantilever => (f_sum SupA loads, 0, m_sum SupA loads)
  | .simplySupported =>
      let Rb := m_sum SupA loads / (SupB - SupA)
      (f_sum SupA loads - Rb, Rb, 0)

/-- `w_at_x` of the source (line 77): the interpolated intensity at the edge
of the overlapped sub-range `[start, min(x, end)]`. -/
def uvl_w_at (w1 w2 s e x : ℚ) : ℚ :=
  let dx := min x e - s
  w1 + ((w2 - w1) * (dx / (e - s)))

/-- One load's `(v, m)` amounts subtracted from the running station values
(source lines 67–80). The UVL branch computes
`cent = (dx/3)·(2·w1+w_at_x)/(w1+w_at_x)` with no guard on the denominator:
in `ℚ` a zero denominator yields `cent = 0`, in Python it raises
`ZeroDivisionError`. -/
def loadVM (x : ℚ) : Load → ℚ × ℚ
  | .point mag loc =>
      if x > loc then (mag, mag * (x - loc)) else (0, 0)
  | .udl mag s e =>
      if x > s then
        let ov := min x e - s
        let f := mag * ov
        (f, f * (x - (s + ov / 2)))
      else (0, 0)
  | .uvl w1 w2 s e =>
      if x > s then
        let dx := min x e - s
        let wAtX := uvl_w_at w1 w2 s e x
        let fSlice := ((w1 + wAtX) / 2) * dx
        let cent := (dx / 3) * ((2 * w1 + wAtX) / (w1 + wAtX))
        (fSlice, fSlice * (x - (s + cent)))
      else (0, 0)

/-- Contribution of support A at a station (source line 64). -/
def reactA_VM (Ra Ma SupA x : ℚ) : ℚ × ℚ :=
  if x > SupA then (Ra, Ra * (x - SupA) - Ma) else (0, 0)

/-- Contribution of support B at a station (source line 65). -/
def reactB_VM (b_type : BType) (Rb SupB x : ℚ) : ℚ × ℚ :=
  if b_type ≠ .cantilever ∧ x > SupB then (Rb, Rb * (x - SupB)) else (0, 0)

/-- Sampled shear `v_val` at one station (source lines 63–81). -/
def sampleV (SupA SupB : ℚ) (b_type : BType) (Ra Rb Ma : ℚ)
    (loads : List Load) (x : ℚ) : ℚ :=
  (reactA_VM Ra Ma SupA x).1 + (reactB_VM b_type Rb SupB x).1
    - (loads.map fun l => (loadVM x l).1).sum

/-- Sampled moment `m_val` at one station (source lines 63–81). -/
def sampleM (SupA SupB : ℚ) (b_type : BType) (Ra Rb Ma : ℚ)
    (loads : List Load) (x : ℚ) : ℚ :=
  (reactA_VM Ra Ma SupA x).2 + (reactB_VM b_type Rb SupB x).2
    - (loads.map fun l => (loadVM x l).2).sum

/-- `np.linspace(0, L, 500)`: station `i` sits at `i·L/499`; station 0 is `0`
and station 499 is exactly `L`. -/
def stations (L : ℚ) : List ℚ :=
  (List.range 500).map fun i : ℕ => (i : ℚ) * L / 499

/-- Whole of `calculate_analysis` (source lines 40–83), returned as
`(x, V, M, Ra, Rb, Ma)`. -/
def calculate_analysis (L SupA SupB : ℚ) (b_type : BType)
    (loads : List Load) :
    List ℚ × List ℚ × List ℚ × ℚ × ℚ × ℚ :=
  let r := calculate_reactions SupA SupB b_type loads
  let xs := stations L
  (xs, xs.map (sampleV SupA SupB b_type r.1 r.2.1 r.2.2 loads),
      xs.map (sampleM SupA SupB b_type r.1 r.2.1 r.2.2 loads),
      r.1, r.2.1, r.2.2)

/-- Range normalization of the "Add UDL" handler (source line 115):
`if us > ue: us, ue = ue, us`. -/
def normalizeUDL (s e : ℚ) : ℚ × ℚ :=
  if s > e then (e, s) else (s, e)

/-- Range normalization of the "Add UVL" handler (source lines 126–128):
positions and end intensities swap together, result `(w1, w2, s, e)`. -/
def normalizeUVL (w1 w2 s e : ℚ) : ℚ × ℚ × ℚ × ℚ :=
  if s > e then (w2, w1, e, s) else (w1, w2, s, e)

/-! ## Claim-side transcription of the reaction-solver formulas (C1, C10) -/

/-- Per-load resultant force as claim C1 spells it: `f` for a point load,
`w·(e−s)` for a uniform load, rectangle `min(w1,w2)·(e−s)` plus triangle
`0.5·|w2−w1|·(e−s)` for a linearly varying load. -/
def claimLoadF : Load → ℚ
  | .point f _ => f
  | .udl w s e => w * (e - s)
  | .uvl w1 w2 s e => min w1 w2 * (e - s) + (1 / 2) * |w2 - w1| * (e - s)

/-- Per-load moment about `SupA` as claim C1 spells it: each resultant times
`(centroid − SupA)`, the triangle centroid at `s + 2/3·(e−s)` if `w2 > w1`,
else `s + 1/3·(e−s)`. -/
def claimLoadM (SupA : ℚ) : Load → ℚ
  | .point f loc => f * (loc - SupA)
  | .udl w s e => w * (e - s) * (s + (e - s) / 2 - SupA)
  | .uvl w1 w2 s e =>
      min w1 w2 * (e - s) * (s + (e - s) / 2 - SupA)
        + (1 / 2) * |w2 - w1| * (e - s) *
            ((if w2 > w1 then s + (2 / 3) * (e - s)
              else s + (1 / 3) * (e - s)) - SupA)

/-- Total vertical force `F` of claim C1. -/
def claimTotalF (loads : List Load) : ℚ := (loads.map claimLoadF).sum

/-- Total moment `M` about `SupA` of claim C1. -/
def claimTotalM (SupA : ℚ) (loads : List Load) : ℚ :=
  (loads.map (claimLoadM SupA)).sum

lemma loadFM_fst (SupA : ℚ) (l : Load) : (loadFM SupA l).1 = claimLoadF l := by
  cases l <;> simp [loadFM, claimLoadF]

lemma loadFM_snd (SupA : ℚ) (l : Load) : (loadFM SupA l).2 = claimLoadM SupA l := by
  cases l with
  | point mag loc => simp [loadFM, claimLoadM]
  | udl mag s e => simp [loadFM, claimLoadM]
  | uvl w1 w2 s e =>
      simp only [loadFM, claimLoadM]
      split <;> ring

lemma f_sum_eq_claim (SupA : ℚ) (loads : List Load) :
    f_sum SupA loads = claimTotalF loads := by
  simp [f_sum, claimTotalF, loadFM_fst]

lemma m_sum_eq_claim (SupA : ℚ) (loads : List Load) :
    m_sum SupA loads = claimTotalM SupA loads := by
  simp [m_sum, claimTotalM, loadFM_snd]

/-- Claim C1: the reaction solver accumulates total force `F` and total moment
`M` about `SupA` from the per-load contributions the claim lists, and returns
exactly `Ra = F, Ma = M, Rb = 0` for a cantilever, and
`Rb = M/(SupB−SupA), Ra = F − Rb, Ma = 0` for a simply-supported beam with
`SupB ≠ SupA`. -/
theorem c1_reaction_solver (SupA SupB : ℚ) (loads : List Load) :
    calculate_reactions SupA SupB .cantilever loads
        = (claimTotalF loads, 0, claimTotalM SupA loads) ∧
    (SupB ≠ SupA →
      calculate_reactions SupA SupB .simplySupported loads
        = (claimTotalF loads - claimTotalM SupA loads / (SupB - SupA),
           claimTotalM SupA loads / (SupB - SupA), 0)) := by
  refine ⟨?_, fun _ => ?_⟩ <;>
    simp [calculate_reactions, f_sum_eq_claim, m_sum_eq_claim]

/-- Witness for C1 at spec scenario 1 (`L = 10`, supports at 0 and 10, point
load 10 kN at 5 m). -/
theorem c1_reaction_solver_witness :
    calculate_reactions 0 10 .simplySupported [Load.point 10 5]
      = (claimTotalF [Load.point 10 5] - claimTotalM 0 [Load.point 10 5] / (10 - 0),
         claimTotalM 0 [Load.point 10 5] / (10 - 0), 0) :=
  (c1_reaction_solver 0 10 [Load.point 10 5]).2 (by norm_num)

/-- Claim C4: a load contributes nothing to the sampled shear and moment at a
station `x` at or before its engagement position (`loc` for a point load,
`start` for a distributed load), and likewise each support reaction at a
station at or before its support position — the source compares with strict
`>` throughout. -/
theorem c4_strict_engagement (Ra Rb Ma SupA SupB x : ℚ) (b_type : BType)
    (l : Load) :
    (x ≤ l.engageAt → loadVM x l = (0, 0)) ∧
    (x ≤ SupA → reactA_VM Ra Ma SupA x = (0, 0)) ∧
    (x ≤ SupB → reactB_VM b_type Rb SupB x = (0, 0)) := by
  refine ⟨fun h => ?_, fun h => ?_, fun h => ?_⟩
  · cases l with
    | point mag loc =>
        simp only [Load.engageAt] at h
        simp only [loadVM]
        rw [if_neg (not_lt.mpr h)]
    | udl mag s e =>
        simp only [Load.engageAt] at h
        simp only [loadVM]
        rw [if_neg (not_lt.mpr h)]
    | uvl w1 w2 s e =>
        simp only [Load.engageAt] at h
        simp only [loadVM]
        rw [if_neg (not_lt.mpr h)]
  · simp only [reactA_VM]
    rw [if_neg (not_lt.mpr h)]
  · simp only [reactB_VM]
    rw [if_neg (by exact fun hc => absurd hc.2 (not_lt.mpr h))]

/-- Witness for C4: a point load at 3 m contributes nothing at the station
`x = 3` exactly. -/
theorem c4_strict_engagement_witness :
    (3 : ℚ) ≤ (Load.point 7 3).engageAt ∧ loadVM 3 (Load.point 7 3) = (0, 0) :=
  ⟨by norm_num [Load.engageAt],
   (c4_strict_engagement 0 0 0 0 0 3 .cantilever (Load.point 7 3)).1
     (by norm_num [Load.engageAt])⟩

/-- Claim C6: the add-handlers swap an inverted range (and, for UVL, the two
end intensities in the same operation); normalization is idempotent; and the
endpoint-to-intensity pairing — hence the physical taper — is preserved. -/
theorem c6_normalization (w1 w2 s e : ℚ) :
    (s > e → normalizeUDL s e = (e, s) ∧ normalizeUVL w1 w2 s e = (w2, w1, e, s)) ∧
    (normalizeUDL (normalizeUDL s e).1 (normalizeUDL s e).2 = normalizeUDL s e) ∧
    (normalizeUVL (normalizeUVL w1 w2 s e).1 (normalizeUVL w1 w2 s e).2.1
        (normalizeUVL w1 w2 s e).2.2.1 (normalizeUVL w1 w2 s e).2.2.2
      = normalizeUVL w1 w2 s e) ∧
    (((normalizeUVL w1 w2 s e).2.2.1, (normalizeUVL w1 w2 s e).1) = (s, w1) ∧
       ((normalizeUVL w1 w2 s e).2.2.2, (normalizeUVL w1 w2 s e).2.1) = (e, w2) ∨
     ((normalizeUVL w1 w2 s e).2.2.1, (normalizeUVL w1 w2 s e).1) = (e, w2) ∧
       ((normalizeUVL w1 w2 s e).2.2.2, (normalizeUVL w1 w2 s e).2.1) = (s, w1)) := by
  by_cases h : s > e
  · refine ⟨fun _ => ?_, ?_, ?_, ?_⟩ <;>
      simp [normalizeUDL, normalizeUVL, h, lt_asymm h]
  · refine ⟨fun hc => absurd hc h, ?_, ?_, ?_⟩ <;>
      simp [normalizeUDL, normalizeUVL, h]

/-- Witness for C6 on the inverted range `start = 8 > end = 2` with
intensities `4 → 9`. -/
theorem c6_normalization_witness :
    normalizeUDL 8 2 = (2, 8) ∧ normalizeUVL 4 9 8 2 = (9, 4, 2, 8) :=
  (c6_normalization 4 9 8 2).1 (by norm_num)

/-! ## Validator behaviour on numeric inputs (C5, C2, C9) -/

lemma validate_nonpos_length (load_type : String) (L : ℚ) (args : List PyVal)
    (hL : L ≤ 0) :
    validate_inputs load_type (.num L) args = (false, .beamLengthMustBePositive) := by
  simp [validate_inputs, validateBody, pyLe, hL]

lemma validate_num_point (L loc : ℚ) (hL : 0 < L) :
    validate_inputs "POINT" (.num L) [.num loc]
      = if loc < 0 ∨ L < loc
        then (false, .locationOutsideBeam (.num loc) (.num L))
        else (true, .empty) := by
  have h0 : ¬ L ≤ 0 := not_le.mpr hL
  by_cases h1 : loc < 0
  · simp [validate_inputs, validateBody, pyLe, pyLt, pyGt, h0, h1]
  · by_cases h2 : L < loc <;>
      simp [validate_inputs, validateBody, pyLe, pyLt, pyGt, h0, h1, h2]

lemma validate_num_range (load_type : String)
    (h : load_type = "UDL" ∨ load_type = "UVL") (L s e : ℚ) (hL : 0 < L) :
    validate_inputs load_type (.num L) [.num s, .num e]
      = if s < 0 ∨ L < e
        then (false, .rangeOutsideBeam (.num s) (.num e) (.num L))
        else if s = e then (false, .startEndSamePoint)
        else (true, .empty) := by
  have h0 : ¬ L ≤ 0 := not_le.mpr hL
  have hp : load_type ≠ "POINT" := by rcases h with h | h <;> simp [h]
  by_cases h1 : s < 0
  · simp [validate_inputs, validateBody, pyLe, pyLt, pyGt, pyEqb, h0, hp, h, h1]
  · by_cases h2 : L < e
    · simp [validate_inputs, validateBody, pyLe, pyLt, pyGt, pyEqb, h0, hp, h, h1, h2]
    · by_cases h3 : s = e
      · subst h3
        simp [validate_inputs, validateBody, pyLe, pyLt, pyGt, pyEqb,
          h0, hp, h, h1, h2]
      · simp [validate_inputs, validateBody, pyLe, pyLt, pyGt, pyEqb,
          h0, hp, h, h1, h2, h3]

/-- Claim C5: with `L > 0`, a point load is accepted iff `0 ≤ location ≤ L`
(else rejected with kind `OutOfBounds`); a distributed load is accepted iff
`start ≥ 0`, `end ≤ L` and `start ≠ end` (else `OutOfBounds` resp.
`DegenerateRange`, UVL handled exactly like UDL); with `L ≤ 0` every load is
rejected with kind `InvalidSpan`. -/
theorem c5_validate_conditions (L loc s e : ℚ) :
    (L ≤ 0 → ∀ load_type args,
        validate_inputs load_type (.num L) args
            = (false, .beamLengthMustBePositive) ∧
        Msg.kind .beamLengthMustBePositive = some .invalidSpan) ∧
    (0 < L →
      (validate_inputs "POINT" (.num L) [.num loc] = (true, .empty) ↔
          0 ≤ loc ∧ loc ≤ L) ∧
      (loc < 0 ∨ L < loc →
        validate_inputs "POINT" (.num L) [.num loc]
            = (false, .locationOutsideBeam (.num loc) (.num L)) ∧
        Msg.kind (.locationOutsideBeam (.num loc) (.num L)) = some .outOfBounds) ∧
      (validate_inputs "UVL" (.num L) [.num s, .num e]
          = validate_inputs "UDL" (.num L) [.num s, .num e]) ∧
      (validate_inputs "UDL" (.num L) [.num s, .num e] = (true, .empty) ↔
          0 ≤ s ∧ e ≤ L ∧ s ≠ e) ∧
      (s < 0 ∨ L < e →
        validate_inputs "UDL" (.num L) [.num s, .num e]
            = (false, .rangeOutsideBeam (.num s) (.num e) (.num L)) ∧
        Msg.kind (.rangeOutsideBeam (.num s) (.num e) (.num L))
            = some .outOfBounds) ∧
      (0 ≤ s → e ≤ L → s = e →
        validate_inputs "UDL" (.num L) [.num s, .num e]
            = (false, .startEndSamePoint) ∧
        Msg.kind .startEndSamePoint = some .degenerateRange)) := by
  constructor
  · intro hL load_type args
    exact ⟨validate_nonpos_length load_type L args hL, rfl⟩
  · intro hL
    have hudl := validate_num_range "UDL" (Or.inl rfl) L s e hL
    have huvl := validate_num_range "UVL" (Or.inr rfl) L s e hL
    refine ⟨?_, ?_, ?_, ?_, ?_, ?_⟩
    · rw [validate_num_point L loc hL]
      by_cases h : loc < 0 ∨ L < loc
      · simp only [if_pos h]
        constructor
        · intro hc
          simp at hc
        · intro ⟨ha, hb⟩
          exact absurd h (by push_neg; exact ⟨ha, hb⟩)
      · simp only [if_neg h]
        push_neg at h
        simp [h.1, h.2]
    · intro h
      rw [validate_num_point L loc hL, if_pos h]
      exact ⟨rfl, rfl⟩
    · rw [hudl, huvl]
    · rw [hudl]
      by_cases h1 : s < 0 ∨ L < e
      · simp only [if_pos h1]
        constructor
        · intro hc
          simp at hc
        · intro ⟨ha, hb, _⟩
          exact absurd h1 (by push_neg; exact ⟨ha, hb⟩)
      · simp only [if_neg h1]
        push_neg at h1
        by_cases h2 : s = e <;>
          simp [h2, h1.1, h1.2]
    · intro h
      rw [hudl, if_pos h]
      exact ⟨rfl, rfl⟩
    · intro h1 h2 h3
      rw [hudl, if_neg (by push_neg; exact ⟨h1, h2⟩), if_pos h3]
      exact ⟨rfl, rfl⟩

/-- Witness for C5 on `L = 10`: point load at 15 m is rejected out of bounds,
the degenerate range `[3,3]` is rejected, and the range `[2,8]` is accepted. -/
theorem c5_validate_conditions_witness :
    ((10 : ℚ) < 15) ∧
    validate_inputs "POINT" (.num 10) [.num 15]
        = (false, .locationOutsideBeam (.num 15) (.num 10)) ∧
    validate_inputs "UDL" (.num 10) [.num 3, .num 3]
        = (false, .startEndSamePoint) ∧
    (validate_inputs "UDL" (.num 10) [.num 2, .num 8] = (true, .empty) ↔
        (0 : ℚ) ≤ 2 ∧ (8 : ℚ) ≤ 10 ∧ (2 : ℚ) ≠ 8) :=
  ⟨by norm_num,
   (((c5_validate_conditions 10 15 3 3).2 (by norm_num)).2.1
      (Or.inr (by norm_num))).1,
   (((c5_validate_conditions 10 15 3 3).2 (by norm_num)).2.2.2.2.2
      (by norm_num) (by norm_num) rfl).1,
   ((c5_validate_conditions 10 15 2 8).2 (by norm_num)).2.2.2.1⟩

/-- Claim C2 (refuted — the check is missing): no outcome of `validate_inputs`
ever has kind `DegenerateSupportSpan` (the validator takes no support
positions at all), yet the configuration "simply supported, `L = 10`,
`SupA = SupB = 5`, point load 10 kN at 6 m" sails through load validation and
reaches the solver, whose divisor `SupB − SupA` is `0` there: the source
raises `ZeroDivisionError` at `Rb = m_sum / (SupB - SupA)`; in the total `ℚ`
model the division yields `Rb = 0` although `m_sum = 10 ≠ 0`. -/
theorem c2_no_degenerate_support_span_check :
    (∀ load_type L args,
        ((validate_inputs load_type L args).2).kind
          ≠ some ErrKind.degenerateSupportSpan) ∧
    validate_inputs "POINT" (.num 10) [.num 6] = (true, .empty) ∧
    (5 : ℚ) - 5 = 0 ∧
    m_sum 5 [Load.point 10 6] = 10 ∧
    calculate_reactions 5 5 .simplySupported [Load.point 10 6] = (10, 0, 0) := by
  refine ⟨?_, by decide, by norm_num, ?_, ?_⟩
  · intro load_type L args
    rcases hm : (validate_inputs load_type L args).2 <;> simp [Msg.kind]
  · norm_num [m_sum, loadFM]
  · norm_num [calculate_reactions, f_sum, m_sum, loadFM]

/-- Claim C3 (refuted — the guard is missing): the load "UVL from 5 to −5
kN/m over `[2,8]`" passes validation on a 10 m beam, the station `x = 9` is
strictly past its start, and there the centroid denominator `w1 + w_clip` of
the source (line 79) is exactly `0` — the source evaluates
`(2*w1+w_at_x)/(w1+w_at_x)` unconditionally and raises `ZeroDivisionError`;
no guard exists. In the total `ℚ` model the branch returns `(0, 0)` (the
overlapped resultant is indeed already zero). -/
theorem c3_unguarded_centroid_denominator :
    validate_inputs "UVL" (.num 10) [.num 2, .num 8] = (true, .empty) ∧
    ((2 : ℚ) < 9) ∧
    (5 : ℚ) + uvl_w_at 5 (-5) 2 8 9 = 0 ∧
    loadVM 9 (Load.uvl 5 (-5) 2 8) = (0, 0) := by
  refine ⟨by decide, by norm_num, ?_, ?_⟩
  · norm_num [uvl_w_at]
  · norm_num [loadVM, uvl_w_at]

/-- Claim C7 (refuted for the moment at `x = L`): on the simply-supported
10 m beam with supports at the ends and the single valid load "UVL from 0 to
10 kN/m over `[2,8]`" (no load at `L`, no zero denominator anywhere), the
first station is `0` and the last station is `10`; shear and moment at the
first station equal the contribution of support A alone (all other terms
vanish), but the sampled moment at the last station is `−60`, not `≈ 0`:
the sampler's mirrored sub-range centroid (see C10) breaks the free-end
moment balance that holds for point and uniform loads. -/
theorem c7_boundary_values :
    validate_inputs "UVL" (.num 10) [.num 2, .num 8] = (true, .empty) ∧
    ((stations (10 : ℚ)).length = 500 ∧
      (stations (10 : ℚ))[0]? = some 0 ∧
      (stations (10 : ℚ))[499]? = some 10) ∧
    calculate_reactions 0 10 .simplySupported [Load.uvl 0 10 2 8]
        = (12, 18, 0) ∧
    sampleV 0 10 .simplySupported 12 18 0 [Load.uvl 0 10 2 8] 0
        = (reactA_VM 12 0 0 0).1 ∧
    sampleM 0 10 .simplySupported 12 18 0 [Load.uvl 0 10 2 8] 0
        = (reactA_VM 12 0 0 0).2 ∧
    sampleM 0 10 .simplySupported 12 18 0 [Load.uvl 0 10 2 8] 10 = -60 ∧
    (-60 : ℚ) ≠ 0 := by
  refine ⟨by decide, ⟨?_, ?_, ?_⟩, ?_, ?_, ?_, ?_, by norm_num⟩
  · rw [stations, List.length_map, List.length_range]
  · rw [stations, List.getElem?_map, List.getElem?_range (by norm_num)]
    norm_num
  · rw [stations, List.getElem?_map, List.getElem?_range (by norm_num)]
    norm_num
  · norm_num [calculate_reactions, f_sum, m_sum, loadFM]
  · norm_num [sampleV, reactA_VM, reactB_VM, loadVM, uvl_w_at]
  · norm_num [sampleM, reactA_VM, reactB_VM, loadVM, uvl_w_at]
  · norm_num [sampleM, reactA_VM, reactB_VM, loadVM, uvl_w_at]

/-- Claim C10 (refuted for the moment part): the force parts of the two
formulations agree for every load (`min(w1,w2) + |w2−w1|/2 = (w1+w2)/2`
pointwise), but at the fully-overlapped UVL "0 → 10 kN/m over `[2,8]`" and
station `x = 10` (denominator `w1 + w2 = 10 ≠ 0`) the sampler subtracts
moment `180` while the solver's rectangle-plus-triangle decomposition of the
same load accounts `120` about the same station: the sampler's
`cent = (dx/3)·(2·w1+w_clip)/(w1+w_clip)` is the trapezoid centroid measured
from the far end of the sub-range, not from its start. -/
theorem c10_sampler_solver_disagreement :
    (∀ w1 w2 s e : ℚ,
        min w1 w2 * (e - s) + (1 / 2) * |w2 - w1| * (e - s)
          = ((w1 + w2) / 2) * (e - s)) ∧
    (loadVM 10 (Load.uvl 0 10 2 8)).1 = claimLoadF (Load.uvl 0 10 2 8) ∧
    ((0 : ℚ) + 10 ≠ 0) ∧
    (loadVM 10 (Load.uvl 0 10 2 8)).2 = 180 ∧
    -(claimLoadM 10 (Load.uvl 0 10 2 8)) = 120 ∧
    ((180 : ℚ) ≠ 120) := by
  refine ⟨?_, ?_, by norm_num, ?_, ?_, by norm_num⟩
  · intro w1 w2 s e
    rcases le_total w1 w2 with h | h
    · rw [min_eq_left h, abs_of_nonneg (by linarith)]
      ring
    · rw [min_eq_right h, abs_of_nonpos (by linarith)]
      ring
  · norm_num [loadVM, claimLoadF, uvl_w_at]
  · norm_num [loadVM, uvl_w_at]
  · norm_num [claimLoadM]

/-- Claim C8: permuting the load list changes nothing in the analysis output —
stations, shear sequence, moment sequence and the three reactions — since
every aggregation over loads is a sum. -/
theorem c8_load_order_irrelevant (L SupA SupB : ℚ) (b_type : BType)
    (loads1 loads2 : List Load) (h : loads1.Perm loads2) :
    calculate_analysis L SupA SupB b_type loads1
      = calculate_analysis L SupA SupB b_type loads2 := by
  have hsum : ∀ g : Load → ℚ, (loads1.map g).sum = (loads2.map g).sum :=
    fun g => (h.map g).sum_eq
  have hf : f_sum SupA loads1 = f_sum SupA loads2 := hsum _
  have hm : m_sum SupA loads1 = m_sum SupA loads2 := hsum _
  have hr : calculate_reactions SupA SupB b_type loads1
      = calculate_reactions SupA SupB b_type loads2 := by
    cases b_type <;> simp [calculate_reactions, hf, hm]
  have hV : ∀ Ra Rb Ma, sampleV SupA SupB b_type Ra Rb Ma loads1
      = sampleV SupA SupB b_type Ra Rb Ma loads2 := by
    intro Ra Rb Ma
    funext x
    simp [sampleV, hsum]
  have hM : ∀ Ra Rb Ma, sampleM SupA SupB b_type Ra Rb Ma loads1
      = sampleM SupA SupB b_type Ra Rb Ma loads2 := by
    intro Ra Rb Ma
    funext x
    simp [sampleM, hsum]
  simp only [calculate_analysis, hr, hV, hM]

/-- Witness for C8: swapping a point load and a uniform load gives the
identical analysis result. -/
theorem c8_load_order_irrelevant_witness :
    calculate_analysis 10 0 10 .simplySupported [Load.point 4 3, Load.udl 2 1 6]
      = calculate_analysis 10 0 10 .simplySupported
          [Load.udl 2 1 6, Load.point 4 3] :=
  c8_load_order_irrelevant 10 0 10 .simplySupported _ _
    (List.Perm.swap (Load.udl 2 1 6) (Load.point 4 3) [])

lemma validateBody_shape (load_type : String) (L : PyVal) (args : List PyVal) :
    validateBody load_type L args = none ∨
    validateBody load_type L args = some (true, .empty) ∨
    ∃ m, validateBody load_type L args = some (false, m) ∧ (Msg.kind m).isSome := by
  unfold validateBody
  repeat' split
  all_goals simp_all [Msg.kind]

/-- Claim C9 counterexample: for the call
`validate_inputs("UDL", 10, -1, "x")` the non-numeric end field is never
compared — Python's `or` short-circuits on `s < 0` — so the result is the
`OutOfBounds` range error (the f-string happily formats the string), not
kind `InvalidInput`. -/
theorem c9_counterexample :
    validate_inputs "UDL" (.num 10) [.num (-1), .nonNum "x"]
      = (false, .rangeOutsideBeam (.num (-1)) (.nonNum "x") (.num 10)) ∧
    ((validate_inputs "UDL" (.num 10) [.num (-1), .nonNum "x"]).2).kind
      = some ErrKind.outOfBounds ∧
    some ErrKind.outOfBounds ≠ some ErrKind.invalidInput := by
  exact ⟨by decide, by decide, by decide⟩

/-- Claim C9 as amended: `validate_inputs` is total — every outcome is either
acceptance or a structured `(kind, message)` error, never a propagated
exception — and a non-numeric field that is actually examined by an order
comparison (the beam length; a point location; a distributed start; a
distributed end when `start ≥ 0`) yields kind `InvalidInput` with message
"Invalid numeric input."; but a non-numeric distributed end whose start is
negative is skipped by the short-circuit `or` and yields `OutOfBounds`
instead. -/
theorem c9_amended_invalid_input (load_type t t2 : String) (L s : ℚ)
    (args : List PyVal) (v : PyVal) :
    validate_inputs load_type (.nonNum t) args = (false, .invalidNumericInput) ∧
    (0 < L →
      validate_inputs "POINT" (.num L) [.nonNum t2]
        = (false, .invalidNumericInput)) ∧
    (0 < L →
      validate_inputs "UDL" (.num L) [.nonNum t2, v]
        = (false, .invalidNumericInput)) ∧
    (0 < L →
      validate_inputs "UVL" (.num L) [.nonNum t2, v]
        = (false, .invalidNumericInput)) ∧
    (0 < L → 0 ≤ s →
      validate_inputs "UDL" (.num L) [.num s, .nonNum t2]
        = (false, .invalidNumericInput)) ∧
    (0 < L → s < 0 →
      validate_inputs "UDL" (.num L) [.num s, .nonNum t2]
        = (false, .rangeOutsideBeam (.num s) (.nonNum t2) (.num L))) ∧
    (∀ lt Lv args2,
      validate_inputs lt Lv args2 = (true, .empty) ∨
      ((validate_inputs lt Lv args2).1 = false ∧
        (((validate_inputs lt Lv args2).2).kind).isSome = true)) := by
  refine ⟨?_, ?_, ?_, ?_, ?_, ?_, ?_⟩
  · simp [validate_inputs, validateBody, pyLe]
  · intro hL
    have h0 : ¬ L ≤ 0 := not_le.mpr hL
    simp [validate_inputs, validateBody, pyLe, pyLt, h0]
  · intro hL
    have h0 : ¬ L ≤ 0 := not_le.mpr hL
    simp [validate_inputs, validateBody, pyLe, pyLt, h0]
  · intro hL
    have h0 : ¬ L ≤ 0 := not_le.mpr hL
    simp [validate_inputs, validateBody, pyLe, pyLt, h0]
  · intro hL hs
    have h0 : ¬ L ≤ 0 := not_le.mpr hL
    have h1 : ¬ s < 0 := not_lt.mpr hs
    simp [validate_inputs, validateBody, pyLe, pyLt, pyGt, h0, h1]
  · intro hL hs
    have h0 : ¬ L ≤ 0 := not_le.mpr hL
    simp [validate_inputs, validateBody, pyLe, pyLt, h0, hs]
  · intro lt Lv args2
    rcases validateBody_shape lt Lv args2 with h | h | ⟨m, h, hk⟩
    · right
      constructor
      · simp [validate_inputs, h]
      · simp [validate_inputs, h, Msg.kind]
    · left
      simp [validate_inputs, h]
    · right
      constructor
      · simp [validate_inputs, h]
      · simpa [validate_inputs, h] using hk

/-- Witness for C9 (amended) at `L = 10`, `s = 3`, non-numeric end field. -/
theorem c9_amended_invalid_input_witness :
    ((0 : ℚ) < 10 ∧ (0 : ℚ) ≤ 3) ∧
    validate_inputs "UDL" (.num 10) [.num 3, .nonNum "bad"]
      = (false, .invalidNumericInput) :=
  ⟨⟨by norm_num, by norm_num⟩,
   (c9_amended_invalid_input "POINT" "oops" "bad" 10 3 [] (.num 1)).2.2.2.2.1
     (by norm_num) (by norm_num)⟩
